import Mathlib

/-
Verification of the scheduling / gating / conversation-flow core of the
Telegram download bot in `src/sakib.py` (a single-file python program).

The embedding is shallow: python dicts become association lists, the mutable
module globals (the six `waiting_for_*` dicts, `user_pending_downloads`, the
`ADMIN_PIN` global) become fields of an explicit state record, wall-clock
timestamps and transport side effects (send / edit / delete message) are
dropped or recorded as outcome tags, and `threading.Timer` objects become
timer identifiers in an explicit table so that firing and cancellation can be
modelled as pure transitions.  `random.randint(a, b)` is modelled by a seeded
function whose range is provably `[a, b]`, matching the library's contract.
Python string operations (`lower`, `strip`, `in`, `replace`, `startswith`)
are re-implemented on Lean strings.
-/

namespace Sakib

/-! ## Python string primitives -/

/-- `text.lower()` (the source only ever lowers ASCII data). -/
def pyLower (s : String) : String := ⟨s.data.map Char.toLower⟩

/-- Python whitespace as stripped by `str.strip()` (ASCII part). -/
def isPyWhitespace (c : Char) : Bool :=
  c = ' ' || c = '\t' || c = '\n' || c = '\r' || c = '\x0b' || c = '\x0c'

/-- `text.strip()`: remove leading and trailing whitespace. -/
def pyStrip (s : String) : String :=
  ⟨((s.data.dropWhile isPyWhitespace).reverse.dropWhile isPyWhitespace).reverse⟩

/-- Substring occurrence on character lists: `pat in hay` for python strings. -/
def listContainsSub (pat : List Char) : List Char → Bool
  | [] => pat.isEmpty
  | c :: rest => pat.isPrefixOf (c :: rest) || listContainsSub pat rest

/-- Python's `pat in hay` substring test. -/
def strContains (hay pat : String) : Bool := listContainsSub pat.data hay.data

/-- Python's `s.startswith(pre)`. -/
def strStartsWith (s pre : String) : Bool := pre.data.isPrefixOf s.data

/-- Python's `s[n:]`. -/
def strDropChars (s : String) (n : Nat) : String := ⟨s.data.drop n⟩

/-- Python's `int(s)` restricted to the nonnegative digit strings the admin
callbacks produce; any other input raises (and the raise is caught by the
surrounding handler), modelled as `none`. -/
def pyInt? (s : String) : Option Nat :=
  if !s.data.isEmpty && s.data.all Char.isDigit then
    some (s.data.foldl (fun acc c => acc * 10 + (c.toNat - 48)) 0)
  else none

/-- Helper for `str.replace(old, '')`: erase every occurrence of `pat`,
left to right, non-overlapping.  `fuel` bounds the scan (each step consumes
at least one character, so `hay.length` fuel is always enough). -/
def eraseOccAux (pat : List Char) : Nat → List Char → List Char
  | 0, l => l
  | _ + 1, [] => []
  | fuel + 1, c :: rest =>
    if !pat.isEmpty && pat.isPrefixOf (c :: rest) then
      eraseOccAux pat fuel ((c :: rest).drop pat.length)
    else
      c :: eraseOccAux pat fuel rest

/-- Python's `s.replace(pat, '')` (the source only replaces with `''`). -/
def pyReplaceEmpty (s pat : String) : String :=
  ⟨eraseOccAux pat.data s.data.length s.data⟩

/-- Model of `random.randint(a, b)`: a seeded choice whose range is exactly
`[a, b]` (for `a ≤ b`), matching the library's documented contract. -/
def randint (a b seed : Nat) : Nat := a + seed % (b - a + 1)

/-! ## Association-list dictionaries

Python `dict`s keyed by user id / file path / timer id.  `assocSet` is
`d[k] = v`, `assocErase` is `del d[k]`, `assocGet` is `d.get(k)`. -/

def assocGet {α β : Type} [DecidableEq α] : List (α × β) → α → Option β
  | [], _ => none
  | (k, v) :: rest, key => if k = key then some v else assocGet rest key

def assocSet {α β : Type} [DecidableEq α] : List (α × β) → α → β → List (α × β)
  | [], key, val => [(key, val)]
  | (k, v) :: rest, key, val =>
    if k = key then (k, val) :: rest else (k, v) :: assocSet rest key val

def assocErase {α β : Type} [DecidableEq α] : List (α × β) → α → List (α × β)
  | [], _ => []
  | (k, v) :: rest, key =>
    if k = key then assocErase rest key else (k, v) :: assocErase rest key

/-- Membership in a python dict used as a set (`waiting_for_admin_pin`,
whose values are always `True`). -/
def natSetMem : List Nat → Nat → Bool
  | [], _ => false
  | y :: rest, x => if y = x then true else natSetMem rest x

/-- `d[uid] = True` on a dict used as a set. -/
def natSetInsert (l : List Nat) (x : Nat) : List Nat :=
  if natSetMem l x then l else x :: l

/-- `del d[uid]` on a dict used as a set (the key is gone entirely). -/
def natSetRemove : List Nat → Nat → List Nat
  | [], _ => []
  | y :: rest, x => if y = x then natSetRemove rest x else y :: natSetRemove rest x

/-! ## Data model (`load_data` defaults, user records, the stored document) -/

/-- The `admin_settings` sub-document.  `admin_pin` is `none` while the
`"admin_pin"` key is absent (the getter then falls back to the `ADMIN_PIN`
module global); `anonymous_text_removal` has no entry in the defaults dict and
is read through `get_admin_setting(_, True)`. -/
structure AdminSettings where
  message_deletion_time : Nat
  auto_delete_enabled : Bool
  banned_words : List String
  banned_words_enabled : Bool
  channel_join_required : Bool
  channel_join_after_links : Nat
  promotion_channel : String
  help_channel : String
  max_file_size_mb : Nat
  auto_removal_enabled : Bool
  base_removal_time_minutes : Nat
  admin_pin : Option String
  anonymous_text_removal : Bool
  deriving Repr, DecidableEq

/-- The defaults written by `UserDataManager.load_data`. -/
def defaultAdminSettings : AdminSettings :=
  { message_deletion_time := 300
    auto_delete_enabled := true
    banned_words := []
    banned_words_enabled := true
    channel_join_required := true
    channel_join_after_links := 5
    promotion_channel := "https://t.me/follwnowo"
    help_channel := "https://t.me/+enYm2HitF0BkNTZl"
    max_file_size_mb := 200
    auto_removal_enabled := true
    base_removal_time_minutes := 30
    admin_pin := none
    anonymous_text_removal := true }

/-- A user record.  Display fields (`username`, `first_name`), wall-clock
timestamps, the download log and the per-command counters are presentation
data not read by any claimed property and are elided. -/
structure UserRec where
  status : String
  link_count : Nat
  all_links : List String
  channel_joined : Bool
  deriving Repr, DecidableEq

/-- The record `add_user` creates on first contact. -/
def freshUser : UserRec :=
  { status := "active", link_count := 0, all_links := [], channel_joined := false }

/-- The stored document: `{users, bot_stats, admin_settings}`. -/
structure BotData where
  users : List (Nat × UserRec)
  total_users : Nat
  total_downloads : Nat
  settings : AdminSettings
  deriving Repr, DecidableEq

/-- `link_count` of a user as the handlers observe it (0 when absent). -/
def linkCountOf (d : BotData) (uid : Nat) : Nat :=
  ((assocGet d.users uid).map (fun u => u.link_count)).getD 0

/-! ## UserDataManager operations -/

/-- `UserDataManager.add_user`: create the user on first contact (bumping
`total_users`); an existing user only has display/activity fields refreshed,
which are elided here. -/
def add_user (d : BotData) (uid : Nat) : BotData :=
  match assocGet d.users uid with
  | none =>
      { d with users := assocSet d.users uid freshUser
               total_users := d.total_users + 1 }
  | some _ => d

/-- Result dict of `UserDataManager.log_link`. -/
structure LinkLogResult where
  link_count : Nat
  needs_channel_join : Bool
  threshold : Nat
  deriving Repr, DecidableEq

/-- `UserDataManager.log_link`: for a registered user append the link, bump
`link_count`, and report whether the channel-join gate applies; for an
unknown user return the fallback dict and leave the document untouched. -/
def log_link (d : BotData) (uid : Nat) (url : String) : BotData × LinkLogResult :=
  match assocGet d.users uid with
  | some u =>
      let u' : UserRec :=
        { u with all_links := u.all_links ++ [url], link_count := u.link_count + 1 }
      let link_threshold := d.settings.channel_join_after_links
      let channel_required := d.settings.channel_join_required
      ({ d with users := assocSet d.users uid u' },
       { link_count := u'.link_count
         needs_channel_join :=
           channel_required && decide (link_threshold ≤ u'.link_count) &&
             !u'.channel_joined
         threshold := link_threshold })
  | none => (d, { link_count := 0, needs_channel_join := false, threshold := 5 })

/-- `UserDataManager.check_banned_words`: case-insensitive substring scan of
the text against the banned-word list, gated by the enable flag. -/
def check_banned_words (s : AdminSettings) (text : String) : List String :=
  if text = "" then []
  else if !s.banned_words_enabled then []
  else s.banned_words.filter (fun w => strContains (pyLower text) (pyLower w))

/-- `UserDataManager.add_banned_word`: lowercase and strip the word, append
it if non-empty and not already present. -/
def add_banned_word (d : BotData) (word : String) : BotData × Bool :=
  let w := pyStrip (pyLower word)
  if w ≠ "" && !(d.settings.banned_words.contains w) then
    ({ d with settings :=
        { d.settings with banned_words := d.settings.banned_words ++ [w] } },
     true)
  else (d, false)

/-- `UserDataManager.remove_banned_word`. -/
def remove_banned_word (d : BotData) (word : String) : BotData × Bool :=
  let w := pyStrip (pyLower word)
  if d.settings.banned_words.contains w then
    ({ d with settings :=
        { d.settings with banned_words := d.settings.banned_words.erase w } },
     true)
  else (d, false)

/-- `UserDataManager.update_channel_join_status` (no-op for unknown users). -/
def update_channel_join_status (d : BotData) (uid : Nat) (joined : Bool) : BotData :=
  match assocGet d.users uid with
  | some u => { d with users := assocSet d.users uid { u with channel_joined := joined } }
  | none => d

/-- `UserDataManager.ban_user_account`. -/
def ban_user_account (d : BotData) (uid : Nat) : BotData × Bool :=
  match assocGet d.users uid with
  | some u => ({ d with users := assocSet d.users uid { u with status := "banned" } }, true)
  | none => (d, false)

/-- `UserDataManager.unban_user_account`. -/
def unban_user_account (d : BotData) (uid : Nat) : BotData × Bool :=
  match assocGet d.users uid with
  | some u => ({ d with users := assocSet d.users uid { u with status := "active" } }, true)
  | none => (d, false)

/-- `UserDataManager.remove_user_account`: delete the record and decrement
the global user counter (never below zero). -/
def remove_user_account (d : BotData) (uid : Nat) : BotData × Bool :=
  match assocGet d.users uid with
  | some _ =>
      ({ d with users := assocErase d.users uid
                total_users := d.total_users - 1 }, true)
  | none => (d, false)

/-! ## FileAutoRemovalManager

`threading.Timer` objects become timer ids; a timer that is still in
`live_timers` fires when its deadline is reached, a cancelled timer is
removed from the table and can never fire.  `files` models the download
directory on disk. -/

/-- `FileAutoRemovalManager.calculate_removal_time`.  The python body
compares `file_size_bytes / (1024*1024) >= 100`, an exact comparison since
the float division by `2^20` is exact for realistic sizes; `seed` feeds the
`random.randint(15, 20)` draw.  Note that `base_time_minutes` is accepted but
never read by the body, exactly as in the source. -/
def calculate_removal_time (file_size_bytes : Int) (base_time_minutes : Nat)
    (seed : Nat) : Nat :=
  if file_size_bytes ≤ 0 then 15
  else if 100 * 1024 * 1024 ≤ file_size_bytes then 30
  else randint 15 20 seed

/-- An entry of `scheduled_removals` (timestamps elided, the timer kept as
its id). -/
structure RemovalEntry where
  file_size : Int
  removal_minutes : Nat
  timer : Nat
  deriving Repr, DecidableEq

/-- Process-local state of `FileAutoRemovalManager` plus the disk. -/
structure SchedState where
  scheduled_removals : List (String × RemovalEntry)
  live_timers : List (Nat × String)
  next_timer : Nat
  files : List String
  deriving Repr, DecidableEq

/-- Result dict of `schedule_file_removal`. -/
structure ScheduleResult where
  scheduled : Bool
  removal_minutes : Nat
  deriving Repr, DecidableEq

/-- `FileAutoRemovalManager.schedule_file_removal`: skipped entirely when
auto-removal is disabled; otherwise compute the delay (passing the configured
base time), record the entry, and start a timer holding the file path. -/
def schedule_file_removal (settings : AdminSettings) (st : SchedState)
    (file_path : String) (file_size_bytes : Int) (seed : Nat) :
    SchedState × ScheduleResult :=
  if !settings.auto_removal_enabled then
    (st, { scheduled := false, removal_minutes := 0 })
  else
    let base_time := settings.base_removal_time_minutes
    let removal_time_minutes := calculate_removal_time file_size_bytes base_time seed
    let tid := st.next_timer
    ({ st with
        scheduled_removals := assocSet st.scheduled_removals file_path
          { file_size := file_size_bytes
            removal_minutes := removal_time_minutes
            timer := tid }
        live_timers := assocSet st.live_timers tid file_path
        next_timer := tid + 1 },
     { scheduled := true, removal_minutes := removal_time_minutes })

/-- The `remove_file` closure firing for timer `tid`: best-effort delete of
the file (a no-op when already gone) and removal of the bookkeeping entry.  A
cancelled or already-fired timer (absent from `live_timers`) does nothing. -/
def fire_timer (st : SchedState) (tid : Nat) : SchedState :=
  match assocGet st.live_timers tid with
  | none => st
  | some file_path =>
      { st with
        files := st.files.erase file_path
        scheduled_removals := assocErase st.scheduled_removals file_path
        live_timers := assocErase st.live_timers tid }

/-- Let any sequence of timers reach their deadlines. -/
def fire_timers (st : SchedState) : List Nat → SchedState
  | [] => st
  | t :: ts => fire_timers (fire_timer st t) ts

/-- `FileAutoRemovalManager.cancel_file_removal`: cancel the entry's timer
and drop the entry, reporting whether anything was cancelled. -/
def cancel_file_removal (st : SchedState) (file_path : String) :
    SchedState × Bool :=
  match assocGet st.scheduled_removals file_path with
  | some entry =>
      ({ st with
          live_timers := assocErase st.live_timers entry.timer
          scheduled_removals := assocErase st.scheduled_removals file_path },
       true)
  | none => (st, false)

/-! ## Channel membership (`check_channel_membership` and the verification
handler's own normalization)

`getChatMember ref` models `bot.get_chat_member(ref, user_id)` for the user
under consideration: `some status` is a successful query, `none` any raised
exception (every `except` arm of the source returns `False`). -/

/-- The prefix-stripping at the top of `check_channel_membership` (a
conditional `replace` of the t.me prefix, then dropping a leading `@`). -/
def stripChannelRef (channel_username : String) : String :=
  let s1 :=
    if strStartsWith channel_username "https://t.me/" then
      pyReplaceEmpty channel_username "https://t.me/"
    else channel_username
  if strStartsWith s1 "@" then strDropChars s1 1 else s1

/-- `check_channel_membership`: a `+`-normalized (private invite-link)
channel cannot be queried and yields `False`; otherwise the transport is
queried and only the statuses `member`, `administrator`, `creator` count. -/
def check_channel_membership (channel_username : String)
    (getChatMember : String → Option String) : Bool :=
  let n := stripChannelRef channel_username
  if strStartsWith n "+" then false
  else
    match getChatMember ("@" ++ n) with
    | some status => ["member", "administrator", "creator"].contains status
    | none => false

/-- The normalization used by `handle_channel_join_verification` (python
`.replace('https://t.me/', '').replace('@', '')`, which erases every
occurrence). -/
def normalizeChannelRef (url : String) : String :=
  pyReplaceEmpty (pyReplaceEmpty url "https://t.me/") "@"

/-- The per-channel acceptance condition of the verification handler:
`joined or is_private` on the normalized reference. -/
def channel_requirement_satisfied (channel_url : String)
    (getChatMember : String → Option String) : Bool :=
  let uname := normalizeChannelRef channel_url
  check_channel_membership uname getChatMember || strStartsWith uname "+"

/-! ## URL detection and extraction -/

/-- `video_domains` of `is_video_url`. -/
def video_domains : List String :=
  ["youtube.com", "youtu.be", "tiktok.com", "instagram.com",
   "twitter.com", "x.com", "facebook.com", "reddit.com",
   "vimeo.com", "dailymotion.com", "twitch.tv"]

/-- `is_video_url`: any known domain occurs in the lowered text and the text
mentions `http`. -/
def is_video_url (text : String) : Bool :=
  let t := pyLower text
  video_domains.any (fun dmn => strContains t dmn) && strContains t "http"

/-- Characters matched by the body class of the extraction regex
`http[s]?://(?:[a-zA-Z]|[0-9]|[$-_@.&+]|[!*\(\),]|(?:%..))+` — the union of
those alternatives is exactly the ASCII range `$`..`_`, the lowercase
letters, and `!`. -/
def url_char_ok (c : Char) : Bool :=
  (('$' ≤ c) && (c ≤ '_')) || (('a' ≤ c) && (c ≤ 'z')) || c = '!'

/-- Maximal run of URL-body characters and the remaining input. -/
def takeUrlRun : List Char → List Char × List Char
  | [] => ([], [])
  | c :: rest =>
    if url_char_ok c then
      let (run, remaining) := takeUrlRun rest
      (c :: run, remaining)
    else ([], c :: rest)

/-- `re.findall` of the URL pattern: scan left to right, at each position try
the (greedy) literal `https://` then `http://` followed by at least one body
character, emit the maximal match and continue after it, else advance one
character.  `fuel` bounds the scan; every step consumes at least one
character. -/
def extract_urls_aux : Nat → List Char → List String
  | 0, _ => []
  | _ + 1, [] => []
  | fuel + 1, c :: rest =>
    let l := c :: rest
    if ("https://".data).isPrefixOf l then
      match takeUrlRun (l.drop 8) with
      | ([], _) => extract_urls_aux fuel rest
      | (run, remaining) => String.mk ("https://".data ++ run) :: extract_urls_aux fuel remaining
    else if ("http://".data).isPrefixOf l then
      match takeUrlRun (l.drop 7) with
      | ([], _) => extract_urls_aux fuel rest
      | (run, remaining) => String.mk ("http://".data ++ run) :: extract_urls_aux fuel remaining
    else extract_urls_aux fuel rest

/-- The `urls = re.findall(url_pattern, message.text)` step of
`universal_message_enforcement`. -/
def extract_urls (text : String) : List String :=
  extract_urls_aux text.data.length text.data

/-! ## Conversation-flow globals and the process state

The source keeps six independent module-level dicts, one per flow kind, plus
`user_pending_downloads` and the mutable `ADMIN_PIN` global (reassigned by
`handle_new_pin_input`).  `waiting_for_admin_pin` maps user id to `True` (a
set); the others map user id to the message id of the prompt being edited
(`waiting_for_admin_message` to a `{target_user_id, target_name, message_id}`
dict, modelled by its two numeric fields). -/

structure FlowState where
  waiting_for_admin_pin : List Nat
  waiting_for_banned_word : List (Nat × Nat)
  waiting_for_promotion_channel : List (Nat × Nat)
  waiting_for_help_channel : List (Nat × Nat)
  waiting_for_new_pin : List (Nat × Nat)
  waiting_for_admin_message : List (Nat × (Nat × Nat))
  deriving Repr, DecidableEq

def emptyFlows : FlowState :=
  { waiting_for_admin_pin := []
    waiting_for_banned_word := []
    waiting_for_promotion_channel := []
    waiting_for_help_channel := []
    waiting_for_new_pin := []
    waiting_for_admin_message := [] }

/-- How many flow kinds have a pending entry for `uid`. -/
def pendingFlows (fs : FlowState) (uid : Nat) : Nat :=
  (if natSetMem fs.waiting_for_admin_pin uid then 1 else 0) +
  (if (assocGet fs.waiting_for_banned_word uid).isSome then 1 else 0) +
  (if (assocGet fs.waiting_for_promotion_channel uid).isSome then 1 else 0) +
  (if (assocGet fs.waiting_for_help_channel uid).isSome then 1 else 0) +
  (if (assocGet fs.waiting_for_new_pin uid).isSome then 1 else 0) +
  (if (assocGet fs.waiting_for_admin_message uid).isSome then 1 else 0)

/-- Whole-process state: the stored document, the six waiting dicts,
`user_pending_downloads`, and the `ADMIN_PIN` module global. -/
structure GState where
  data : BotData
  flows : FlowState
  user_pending_downloads : List (Nat × String)
  admin_pin_env : String
  deriving Repr, DecidableEq

/-! ## Flow-start handlers (`begin` operations) -/

/-- `admin_panel_request` (trigger phrase `I AM BOSS`): register the user,
delete the trigger message, mark the user as waiting for the PIN, send the
challenge and schedule its deletion.  Only the state mutations are kept. -/
def admin_panel_request (g : GState) (uid : Nat) : GState :=
  { g with
    data := add_user g.data uid
    flows := { g.flows with
      waiting_for_admin_pin := natSetInsert g.flows.waiting_for_admin_pin uid } }

/-- `handle_add_banned_word_request` (callback `add_banned_word`). -/
def handle_add_banned_word_request (g : GState) (uid : Nat) (message_id : Nat) :
    GState :=
  { g with flows := { g.flows with
      waiting_for_banned_word := assocSet g.flows.waiting_for_banned_word uid message_id } }

/-- `handle_promotion_channel_change_request` (callback `change_promotion_channel`). -/
def handle_promotion_channel_change_request (g : GState) (uid : Nat)
    (message_id : Nat) : GState :=
  { g with flows := { g.flows with
      waiting_for_promotion_channel :=
        assocSet g.flows.waiting_for_promotion_channel uid message_id } }

/-- `handle_help_channel_change_request` (callback `change_help_channel`). -/
def handle_help_channel_change_request (g : GState) (uid : Nat)
    (message_id : Nat) : GState :=
  { g with flows := { g.flows with
      waiting_for_help_channel :=
        assocSet g.flows.waiting_for_help_channel uid message_id } }

/-- `handle_admin_pin_change_request` (callback `admin_change_pin`). -/
def handle_admin_pin_change_request (g : GState) (uid : Nat) (message_id : Nat) :
    GState :=
  { g with flows := { g.flows with
      waiting_for_new_pin := assocSet g.flows.waiting_for_new_pin uid message_id } }

/-! ## Flow-input handlers (`consume` operations) -/

/-- Observable outcome of `handle_admin_pin_entry` (the transport effects:
whether access was granted and whether the failure notice was handed to the
message-deletion scheduler). -/
structure PinEntryResult where
  handled : Bool
  granted : Bool
  error_scheduled : Bool
  deriving Repr, DecidableEq

/-- `handle_admin_pin_entry`: guard on the waiting set, strip the input,
always clear the waiting entry and delete the input message, then compare
against the `ADMIN_PIN` global and the overridable stored `admin_pin`
setting; on failure the error notice is scheduled for deletion. -/
def handle_admin_pin_entry (g : GState) (uid : Nat) (text : String) :
    GState × PinEntryResult :=
  if !natSetMem g.flows.waiting_for_admin_pin uid then
    (g, { handled := false, granted := false, error_scheduled := false })
  else
    let entered_pin := pyStrip text
    let flows' := { g.flows with
      waiting_for_admin_pin := natSetRemove g.flows.waiting_for_admin_pin uid }
    let admin_pin_from_settings := g.data.settings.admin_pin.getD g.admin_pin_env
    if entered_pin == g.admin_pin_env || entered_pin == admin_pin_from_settings then
      ({ g with flows := flows' },
       { handled := true, granted := true, error_scheduled := false })
    else
      ({ g with flows := flows' },
       { handled := true, granted := false, error_scheduled := true })

/-- `handle_banned_word_addition`: consume the waiting entry, delete the
input, and add the stripped word through `add_banned_word` when non-empty. -/
def handle_banned_word_addition (g : GState) (uid : Nat) (text : String) : GState :=
  match assocGet g.flows.waiting_for_banned_word uid with
  | none => g
  | some _ =>
    let g1 := { g with flows := { g.flows with
      waiting_for_banned_word := assocErase g.flows.waiting_for_banned_word uid } }
    let new_word := pyStrip text
    if new_word ≠ "" then { g1 with data := (add_banned_word g1.data new_word).1 }
    else g1

/-- `handle_promotion_channel_input`: consume the entry; accept the new URL
only when it starts with `https://t.me/` or `@`. -/
def handle_promotion_channel_input (g : GState) (uid : Nat) (text : String) : GState :=
  match assocGet g.flows.waiting_for_promotion_channel uid with
  | none => g
  | some _ =>
    let g1 := { g with flows := { g.flows with
      waiting_for_promotion_channel :=
        assocErase g.flows.waiting_for_promotion_channel uid } }
    let new_channel := pyStrip text
    if new_channel ≠ "" &&
        (strStartsWith new_channel "https://t.me/" || strStartsWith new_channel "@") then
      { g1 with data := { g1.data with settings :=
          { g1.data.settings with promotion_channel := new_channel } } }
    else g1

/-- `handle_help_channel_input`: same shape as the promotion-channel flow. -/
def handle_help_channel_input (g : GState) (uid : Nat) (text : String) : GState :=
  match assocGet g.flows.waiting_for_help_channel uid with
  | none => g
  | some _ =>
    let g1 := { g with flows := { g.flows with
      waiting_for_help_channel := assocErase g.flows.waiting_for_help_channel uid } }
    let new_channel := pyStrip text
    if new_channel ≠ "" &&
        (strStartsWith new_channel "https://t.me/" || strStartsWith new_channel "@") then
      { g1 with data := { g1.data with settings :=
          { g1.data.settings with help_channel := new_channel } } }
    else g1

/-- `handle_new_pin_input`: consume the entry; a valid 6-digit PIN replaces
both the `ADMIN_PIN` global and the stored `admin_pin` setting. -/
def handle_new_pin_input (g : GState) (uid : Nat) (text : String) : GState :=
  match assocGet g.flows.waiting_for_new_pin uid with
  | none => g
  | some _ =>
    let g1 := { g with flows := { g.flows with
      waiting_for_new_pin := assocErase g.flows.waiting_for_new_pin uid } }
    let new_pin := pyStrip text
    if new_pin.length = 6 && new_pin.data.all Char.isDigit then
      { g1 with
        admin_pin_env := new_pin
        data := { g1.data with settings :=
          { g1.data.settings with admin_pin := some new_pin } } }
    else g1

/-- `handle_admin_message_input`: consume the entry and forward the text to
the target user (a transport effect, elided). -/
def handle_admin_message_input (g : GState) (uid : Nat) (_text : String) : GState :=
  match assocGet g.flows.waiting_for_admin_message uid with
  | none => g
  | some _ =>
    { g with flows := { g.flows with
        waiting_for_admin_message := assocErase g.flows.waiting_for_admin_message uid } }

/-! ## Gating: join requirement and verification -/

/-- `handle_channel_join_requirement`: remember the URL that triggered the
gate (`user_pending_downloads[user.id] = url`, overwriting any older one) and
prompt the user to join.  Only the state mutation is kept. -/
def handle_channel_join_requirement (g : GState) (uid : Nat) (url : String) : GState :=
  { g with user_pending_downloads := assocSet g.user_pending_downloads uid url }

/-- Observable outcome of `handle_channel_join_verification`. -/
structure VerifyResult where
  verified : Bool
  downloads_started : List String
  deriving Repr, DecidableEq

/-- `handle_channel_join_verification` (callback `verify_channel_join`):
normalize both configured channel references, accept each channel when the
transport reports membership or the channel is a private invite link, and on
acceptance mark the user joined and replay the pending download, if any,
exactly once.  The final `else` arm (both channels private yet the combined
condition false) is kept although it is unreachable. -/
def handle_channel_join_verification (g : GState) (uid : Nat)
    (getChatMember : String → Option String) : GState × VerifyResult :=
  let promo_username := normalizeChannelRef g.data.settings.promotion_channel
  let help_username := normalizeChannelRef g.data.settings.help_channel
  let promo_joined := check_channel_membership promo_username getChatMember
  let help_joined := check_channel_membership help_username getChatMember
  let promo_is_private := strStartsWith promo_username "+"
  let help_is_private := strStartsWith help_username "+"
  if (promo_joined || promo_is_private) && (help_joined || help_is_private) then
    let g1 := { g with data := update_channel_join_status g.data uid true }
    match assocGet g1.user_pending_downloads uid with
    | some pending_url =>
        ({ g1 with user_pending_downloads :=
            assocErase g1.user_pending_downloads uid },
         { verified := true, downloads_started := [pending_url] })
    | none => (g1, { verified := true, downloads_started := [] })
  else
    let missed_promo := !promo_joined && !promo_is_private
    let missed_help := !help_joined && !help_is_private
    if missed_promo || missed_help then
      (g, { verified := false, downloads_started := [] })
    else
      ({ g with data := update_channel_join_status g.data uid true },
       { verified := true, downloads_started := [] })

/-! ## The universal enforcement handler and telebot dispatch -/

/-- What the link-processing loop of `universal_message_enforcement` does
with the first video URL it meets (the loop `return`s inside that branch). -/
inductive LinkAction
  | noAction
  | joinRequired (url : String)
  | download (url : String)
  deriving Repr, DecidableEq

/-- The `for url in urls` loop: log every URL, and stop at the first video
URL, either parking it behind the join gate or starting its download. -/
def process_message_links (g : GState) (uid : Nat) :
    List String → GState × LinkAction
  | [] => (g, LinkAction.noAction)
  | url :: rest =>
    let (d', link_info) := log_link g.data uid url
    let g' := { g with data := d' }
    if is_video_url url then
      if link_info.needs_channel_join then
        (handle_channel_join_requirement g' uid url, LinkAction.joinRequired url)
      else
        (g', LinkAction.download url)
    else process_message_links g' uid rest

/-- The exact button texts recognized by the enforcement handler. -/
def reserved_texts : List String :=
  ["🧹 Clear Chat", "📥 Download Video", "📊 My Stats", "ℹ️ Help",
   "🔗 Supported Sites", "I AM BOSS"]

/-- Outcome tags for `universal_message_enforcement`: which side effect ended
the handler (button replies and flow completions carry no further payload we
need). -/
inductive UMEOutcome
  | bannedUserBlocked
  | moderationDeleted (found_words : List String)
  | linkHandled (a : LinkAction)
  | anonymousDeleted
  | clearChatMenu
  | downloadMenu
  | statsShown
  | helpShown
  | sitesShown
  | bossPrompt
  | pinEntry (r : PinEntryResult)
  | bannedWordFlow
  | promotionFlow
  | helpChannelFlow
  | newPinFlow
  | adminMessageFlow
  | noSpecificHandling
  deriving Repr, DecidableEq

/-- The button-dispatch and flow-dispatch tail of
`universal_message_enforcement` (source lines 1429-1474), reached when no
link handling and no anonymous-text deletion returned early. -/
def universal_tail (g : GState) (uid : Nat) (text : String) : GState × UMEOutcome :=
  if text = "🧹 Clear Chat" then (g, UMEOutcome.clearChatMenu)
  else if text = "📥 Download Video" then (g, UMEOutcome.downloadMenu)
  else if text = "📊 My Stats" then (g, UMEOutcome.statsShown)
  else if text = "ℹ️ Help" then (g, UMEOutcome.helpShown)
  else if text = "🔗 Supported Sites" then (g, UMEOutcome.sitesShown)
  else if text = "I AM BOSS" then (admin_panel_request g uid, UMEOutcome.bossPrompt)
  else if natSetMem g.flows.waiting_for_admin_pin uid then
    ((handle_admin_pin_entry g uid text).1,
     UMEOutcome.pinEntry (handle_admin_pin_entry g uid text).2)
  else if (assocGet g.flows.waiting_for_banned_word uid).isSome then
    (handle_banned_word_addition g uid text, UMEOutcome.bannedWordFlow)
  else if (assocGet g.flows.waiting_for_promotion_channel uid).isSome then
    (handle_promotion_channel_input g uid text, UMEOutcome.promotionFlow)
  else if (assocGet g.flows.waiting_for_help_channel uid).isSome then
    (handle_help_channel_input g uid text, UMEOutcome.helpChannelFlow)
  else if (assocGet g.flows.waiting_for_new_pin uid).isSome then
    (handle_new_pin_input g uid text, UMEOutcome.newPinFlow)
  else if (assocGet g.flows.waiting_for_admin_message uid).isSome then
    (handle_admin_message_input g uid text, UMEOutcome.adminMessageFlow)
  else (g, UMEOutcome.noSpecificHandling)

/-- `universal_message_enforcement`: block banned users, register the user,
run the banned-word filter, then either process links (stopping at the first
video URL) or consider deleting anonymous text, and finally fall through to
the button / flow dispatch.  Transport effects are reported as the outcome
tag; a deleted message is `moderationDeleted` with the matched words. -/
def universal_message_enforcement (g : GState) (uid : Nat) (text : String) :
    GState × UMEOutcome :=
  let status := ((assocGet g.data.users uid).map (fun u => u.status)).getD ""
  if status = "banned" then (g, UMEOutcome.bannedUserBlocked)
  else
    let g1 := { g with data := add_user g.data uid }
    let found_words := check_banned_words g1.data.settings text
    if !found_words.isEmpty then (g1, UMEOutcome.moderationDeleted found_words)
    else
      let lower := pyLower text
      let message_has_links := strContains lower "http" || strContains lower "www."
      if message_has_links then
        let urls := extract_urls text
        let res := process_message_links g1 uid urls
        match res.2 with
        | LinkAction.noAction => universal_tail res.1 uid text
        | a => (res.1, UMEOutcome.linkHandled a)
      else
        if !(strStartsWith text "/") && !(reserved_texts.contains text) &&
            !(natSetMem g1.flows.waiting_for_admin_pin uid) &&
            !(assocGet g1.flows.waiting_for_banned_word uid).isSome &&
            !(assocGet g1.flows.waiting_for_promotion_channel uid).isSome &&
            !(assocGet g1.flows.waiting_for_help_channel uid).isSome &&
            !(assocGet g1.flows.waiting_for_new_pin uid).isSome &&
            !(assocGet g1.flows.waiting_for_admin_message uid).isSome &&
            g1.data.settings.anonymous_text_removal then
          (g1, UMEOutcome.anonymousDeleted)
        else universal_tail g1 uid text

/-- The registered text handlers, in registration order.  telebot runs the
first handler whose filter matches, so registration order is the dispatch
order; `handle_admin_pin_entry` is registered at source line 1086, before
`universal_message_enforcement` at line 1351. -/
inductive RegisteredHandler
  | startCommand
  | downloadButton
  | statsButton
  | bossButton
  | adminPinEntryHandler
  | helpButton
  | sitesButton
  | universalHandler
  deriving Repr, DecidableEq

/-- Which registered text handler receives a message (first matching filter
in registration order; the handlers registered after the universal one can
never match a text message and are omitted). -/
def dispatch_text (g : GState) (uid : Nat) (text : String) : RegisteredHandler :=
  if strStartsWith text "/start" then RegisteredHandler.startCommand
  else if text = "📥 Download Video" then RegisteredHandler.downloadButton
  else if text = "📊 My Stats" then RegisteredHandler.statsButton
  else if text = "I AM BOSS" then RegisteredHandler.bossButton
  else if natSetMem g.flows.waiting_for_admin_pin uid then
    RegisteredHandler.adminPinEntryHandler
  else if text = "ℹ️ Help" then RegisteredHandler.helpButton
  else if text = "🔗 Supported Sites" then RegisteredHandler.sitesButton
  else RegisteredHandler.universalHandler

/-- Outcome of a whole inbound text event. -/
inductive InboundOutcome
  | startReply
  | menuReply
  | statsReply
  | helpReply
  | sitesReply
  | adminPinPrompt
  | pinProcessed (r : PinEntryResult)
  | enforced (o : UMEOutcome)
  deriving Repr, DecidableEq

/-- One inbound text event end to end: telebot dispatch followed by the
selected handler.  The pure menu/stats/help handlers only register the user
and send presentation text. -/
def handle_inbound_text (g : GState) (uid : Nat) (text : String) :
    GState × InboundOutcome :=
  match dispatch_text g uid text with
  | RegisteredHandler.startCommand =>
      ({ g with data := add_user g.data uid }, InboundOutcome.startReply)
  | RegisteredHandler.downloadButton =>
      ({ g with data := add_user g.data uid }, InboundOutcome.menuReply)
  | RegisteredHandler.statsButton =>
      ({ g with data := add_user g.data uid }, InboundOutcome.statsReply)
  | RegisteredHandler.bossButton =>
      (admin_panel_request g uid, InboundOutcome.adminPinPrompt)
  | RegisteredHandler.adminPinEntryHandler =>
      ((handle_admin_pin_entry g uid text).1,
       InboundOutcome.pinProcessed (handle_admin_pin_entry g uid text).2)
  | RegisteredHandler.helpButton =>
      ({ g with data := add_user g.data uid }, InboundOutcome.helpReply)
  | RegisteredHandler.sitesButton =>
      ({ g with data := add_user g.data uid }, InboundOutcome.sitesReply)
  | RegisteredHandler.universalHandler =>
      ((universal_message_enforcement g uid text).1,
       InboundOutcome.enforced (universal_message_enforcement g uid text).2)

/-- Outcome of a callback event. -/
inductive CallbackOutcome
  | displayOnly
  | settingChanged
  | flowStarted
  | verifyResult (r : VerifyResult)
  deriving Repr, DecidableEq

/-- `handle_callback_query`: the branches of the `call.data` chain that
mutate the modelled state, in source order; the `show_*` dashboard branches
only render text and collapse to `displayOnly`.  File-management branches
that touch the disk and the `int(...)`-parsing branches raise-on-garbage
behaviour are outside the modelled state and likewise collapse. -/
def handle_callback (g : GState) (uid : Nat) (message_id : Nat) (cdata : String)
    (getChatMember : String → Option String) : GState × CallbackOutcome :=
  if cdata = "add_banned_word" then
    (handle_add_banned_word_request g uid message_id, CallbackOutcome.flowStarted)
  else if cdata = "toggle_banned_words" then
    ({ g with data := { g.data with settings := { g.data.settings with
        banned_words_enabled := !g.data.settings.banned_words_enabled } } },
     CallbackOutcome.settingChanged)
  else if cdata = "toggle_channel_join" then
    ({ g with data := { g.data with settings := { g.data.settings with
        channel_join_required := !g.data.settings.channel_join_required } } },
     CallbackOutcome.settingChanged)
  else if cdata = "verify_channel_join" then
    ((handle_channel_join_verification g uid getChatMember).1,
     CallbackOutcome.verifyResult (handle_channel_join_verification g uid getChatMember).2)
  else if cdata = "change_promotion_channel" then
    (handle_promotion_channel_change_request g uid message_id,
     CallbackOutcome.flowStarted)
  else if cdata = "change_help_channel" then
    (handle_help_channel_change_request g uid message_id, CallbackOutcome.flowStarted)
  else if cdata = "toggle_auto_removal" then
    ({ g with data := { g.data with settings := { g.data.settings with
        auto_removal_enabled := !g.data.settings.auto_removal_enabled } } },
     CallbackOutcome.settingChanged)
  else if strStartsWith cdata "set_base_removal_time_" then
    match pyInt? (strDropChars cdata 22) with
    | some n =>
        ({ g with data := { g.data with settings := { g.data.settings with
            base_removal_time_minutes := n } } }, CallbackOutcome.settingChanged)
    | none => (g, CallbackOutcome.displayOnly)
  else if cdata = "admin_change_pin" then
    (handle_admin_pin_change_request g uid message_id, CallbackOutcome.flowStarted)
  else (g, CallbackOutcome.displayOnly)

/-! ## Dictionary lemmas -/

theorem assocGet_set_self {α β : Type} [DecidableEq α]
    (l : List (α × β)) (k : α) (v : β) : assocGet (assocSet l k v) k = some v := by
  induction l with
  | nil => simp [assocSet, assocGet]
  | cons p rest ih =>
    obtain ⟨a, b⟩ := p
    by_cases h : a = k
    · simp [assocSet, assocGet, h]
    · simp [assocSet, assocGet, h, ih]

theorem assocGet_set_ne {α β : Type} [DecidableEq α]
    (l : List (α × β)) (k k' : α) (v : β) (h : k' ≠ k) :
    assocGet (assocSet l k v) k' = assocGet l k' := by
  induction l with
  | nil => simp [assocSet, assocGet, Ne.symm h]
  | cons p rest ih =>
    obtain ⟨a, b⟩ := p
    by_cases ha : a = k
    · subst ha
      simp [assocSet, assocGet, Ne.symm h]
    · simp [assocSet, assocGet, ha, ih]

theorem assocGet_erase_self {α β : Type} [DecidableEq α]
    (l : List (α × β)) (k : α) : assocGet (assocErase l k) k = none := by
  induction l with
  | nil => simp [assocErase, assocGet]
  | cons p rest ih =>
    obtain ⟨a, b⟩ := p
    by_cases h : a = k
    · simp [assocErase, h, ih]
    · simp [assocErase, assocGet, h, ih]

theorem assocGet_erase_ne {α β : Type} [DecidableEq α]
    (l : List (α × β)) (k k' : α) (h : k' ≠ k) :
    assocGet (assocErase l k) k' = assocGet l k' := by
  induction l with
  | nil => simp [assocErase, assocGet]
  | cons p rest ih =>
    obtain ⟨a, b⟩ := p
    by_cases ha : a = k
    · subst ha
      simp [assocErase, assocGet, Ne.symm h, ih]
    · simp [assocErase, assocGet, ha, ih]

theorem natSetMem_insert_self (l : List Nat) (x : Nat) :
    natSetMem (natSetInsert l x) x = true := by
  unfold natSetInsert
  by_cases h : natSetMem l x = true
  · simp [h]
  · simp [h, natSetMem]

theorem natSetMem_remove_self (l : List Nat) (x : Nat) :
    natSetMem (natSetRemove l x) x = false := by
  induction l with
  | nil => simp [natSetRemove, natSetMem]
  | cons y rest ih =>
    by_cases h : y = x
    · simp [natSetRemove, h, ih]
    · simp [natSetRemove, natSetMem, h, ih]

/-! ## Facts about `add_user` shared by several handler proofs -/

theorem add_user_settings (d : BotData) (uid : Nat) :
    (add_user d uid).settings = d.settings := by
  unfold add_user
  cases assocGet d.users uid <;> rfl

theorem add_user_flows_invisible (d : BotData) (uid : Nat) (v : Nat) :
    linkCountOf (add_user d uid) v = linkCountOf d v := by
  unfold add_user
  cases h : assocGet d.users uid with
  | some u => rfl
  | none =>
    by_cases hv : v = uid
    · subst hv
      simp [linkCountOf, assocGet_set_self, h, freshUser]
    · simp [linkCountOf, assocGet_set_ne _ _ _ _ hv]

/-! ## C6 — the needs-verification flag of `log_link` -/

/-- C6: for a registered user, the `needs_channel_join` flag returned by
`log_link` is true exactly when the membership requirement is enabled, the
incremented `link_count` has reached the configured threshold, and the user's
`channel_joined` flag is still false. -/
theorem log_link_needs_verification_iff (d : BotData) (uid : Nat) (url : String)
    (u : UserRec) (h : assocGet d.users uid = some u) :
    ((log_link d uid url).2.needs_channel_join = true) ↔
      (d.settings.channel_join_required = true ∧
       d.settings.channel_join_after_links ≤ u.link_count + 1 ∧
       u.channel_joined = false) := by
  simp [log_link, h, Bool.and_assoc, and_assoc]

/-- Concrete run of C6: a user with 4 prior links under the default settings
(threshold 5, membership required) trips the flag on the fifth link. -/
theorem log_link_needs_verification_iff_witness :
    assocGet
        [(1, { status := "active", link_count := 4, all_links := [],
               channel_joined := false : UserRec })] 1 =
      some { status := "active", link_count := 4, all_links := [],
             channel_joined := false : UserRec } ∧
    ((log_link
        { users := [(1, { status := "active", link_count := 4, all_links := [],
                          channel_joined := false })]
          total_users := 1, total_downloads := 0,
          settings := defaultAdminSettings } 1
        "https://youtube.com/w").2.needs_channel_join = true ↔
      (defaultAdminSettings.channel_join_required = true ∧
       defaultAdminSettings.channel_join_after_links ≤ 4 + 1 ∧
       (false : Bool) = false)) :=
  ⟨rfl,
   log_link_needs_verification_iff
     { users := [(1, { status := "active", link_count := 4, all_links := [],
                       channel_joined := false })]
       total_users := 1, total_downloads := 0,
       settings := defaultAdminSettings } 1 "https://youtube.com/w" _ rfl⟩

/-! ## C10 — `log_link` for an unknown user -/

/-- C10: for a user id absent from the users map, `log_link` leaves the
document untouched and returns the fallback result with `link_count` 0, no
channel-join requirement, and threshold 5. -/
theorem log_link_unregistered_noop (d : BotData) (uid : Nat) (url : String)
    (h : assocGet d.users uid = none) :
    log_link d uid url =
      (d, { link_count := 0, needs_channel_join := false, threshold := 5 }) := by
  simp [log_link, h]

/-- Concrete run of C10 on an empty users map. -/
theorem log_link_unregistered_noop_witness :
    assocGet ([] : List (Nat × UserRec)) 42 = none ∧
    log_link
        { users := [], total_users := 0, total_downloads := 0,
          settings := defaultAdminSettings } 42 "https://youtu.be/z" =
      ({ users := [], total_users := 0, total_downloads := 0,
         settings := defaultAdminSettings },
       { link_count := 0, needs_channel_join := false, threshold := 5 }) :=
  ⟨rfl,
   log_link_unregistered_noop
     { users := [], total_users := 0, total_downloads := 0,
       settings := defaultAdminSettings } 42 "https://youtu.be/z" rfl⟩

/-! ## C4 — the size-to-delay computation -/

/-- C4 (amended): the computed delay is exactly 30 minutes for any artifact
of at least 100 MB — independently of the configured base removal time,
whose value the function ignores — and an integer in `[15, 20]` for any
artifact strictly between 0 and 100 MB. -/
theorem calculate_removal_time_spec (file_size_bytes : Int) (base seed : Nat) :
    (100 * 1024 * 1024 ≤ file_size_bytes →
      calculate_removal_time file_size_bytes base seed = 30) ∧
    (0 < file_size_bytes → file_size_bytes < 100 * 1024 * 1024 →
      15 ≤ calculate_removal_time file_size_bytes base seed ∧
      calculate_removal_time file_size_bytes base seed ≤ 20) := by
  constructor
  · intro h
    have h0 : ¬ file_size_bytes ≤ 0 := by omega
    unfold calculate_removal_time
    rw [if_neg h0, if_pos h]
  · intro h1 h2
    have h0 : ¬ file_size_bytes ≤ 0 := by omega
    have h3 : ¬ ((100 * 1024 * 1024 : Int) ≤ file_size_bytes) := by omega
    have hmod : seed % 6 < 6 := Nat.mod_lt seed (by norm_num)
    unfold calculate_removal_time
    rw [if_neg h0, if_neg h3]
    unfold randint
    omega

/-- Concrete runs of C4 (amended): a 250 MB artifact gets exactly 30
minutes, a 40 MB artifact a delay within `[15, 20]`. -/
theorem calculate_removal_time_spec_witness :
    ((100 * 1024 * 1024 : Int) ≤ 250 * 1024 * 1024 ∧
      calculate_removal_time (250 * 1024 * 1024) 30 0 = 30) ∧
    ((0 : Int) < 40 * 1024 * 1024 ∧
      (40 * 1024 * 1024 : Int) < 100 * 1024 * 1024 ∧
      15 ≤ calculate_removal_time (40 * 1024 * 1024) 30 7 ∧
      calculate_removal_time (40 * 1024 * 1024) 30 7 ≤ 20) :=
  ⟨⟨by decide, (calculate_removal_time_spec (250 * 1024 * 1024) 30 0).1 (by decide)⟩,
   ⟨by decide, by decide,
    ((calculate_removal_time_spec (40 * 1024 * 1024) 30 7).2 (by decide) (by decide)).1,
    ((calculate_removal_time_spec (40 * 1024 * 1024) 30 7).2 (by decide) (by decide)).2⟩⟩

/-- C4 counterexample: with the base removal time configured to 45 minutes
(a value offered by the file-management menu), a 250 MB artifact is still
scheduled for 30 minutes — the delay does not equal the configured base. -/
theorem removal_time_ignores_configured_base :
    (schedule_file_removal
        { defaultAdminSettings with base_removal_time_minutes := 45 }
        { scheduled_removals := [], live_timers := [], next_timer := 0, files := [] }
        "downloads/video_1.mp4" (250 * 1024 * 1024) 0).2.removal_minutes = 30 ∧
    ({ defaultAdminSettings with
        base_removal_time_minutes := 45 } : AdminSettings).base_removal_time_minutes
      = 45 := by
  constructor <;> decide

/-! ## C5 — schedule then cancel -/

/-- While no live timer targets `p`, no sequence of timer firings can remove
file `p`. -/
theorem fire_timers_preserve_untargeted_file (p : String) :
    ∀ (ts : List Nat) (st : SchedState),
      p ∈ st.files → (∀ t, assocGet st.live_timers t ≠ some p) →
      p ∈ (fire_timers st ts).files := by
  intro ts
  induction ts with
  | nil => intro st hf _; exact hf
  | cons t ts ih =>
    intro st hf hfree
    have hstep : p ∈ (fire_timer st t).files ∧
        (∀ t', assocGet (fire_timer st t).live_timers t' ≠ some p) := by
      unfold fire_timer
      cases hget : assocGet st.live_timers t with
      | none => exact ⟨hf, hfree⟩
      | some q =>
        have hq : q ≠ p := by
          intro hqp
          exact hfree t (by rw [hget, hqp])
        refine ⟨?_, ?_⟩
        · exact (List.mem_erase_of_ne (fun hpq => hq hpq.symm)).mpr hf
        · intro t'
          by_cases ht' : t' = t
          · subst ht'
            rw [assocGet_erase_self]
            exact fun hx => Option.noConfusion hx
          · rw [assocGet_erase_ne _ _ _ ht']
            exact hfree t'
    exact ih (fire_timer st t) hstep.1 hstep.2

/-- C5: with auto-removal enabled, scheduling a removal for a path that has
no live timer yet and then cancelling it makes `cancel_file_removal` return
`true`, removes the path's entry from `scheduled_removals`, and leaves the
file on disk no matter which timers later reach their deadlines. -/
theorem schedule_then_cancel_never_removes (settings : AdminSettings)
    (st : SchedState) (p : String) (size : Int) (seed : Nat)
    (henabled : settings.auto_removal_enabled = true)
    (hfree : ∀ t, assocGet st.live_timers t ≠ some p)
    (hfile : p ∈ st.files) :
    (cancel_file_removal (schedule_file_removal settings st p size seed).1 p).2 = true ∧
    assocGet (cancel_file_removal
        (schedule_file_removal settings st p size seed).1 p).1.scheduled_removals p
      = none ∧
    ∀ ts : List Nat,
      p ∈ (fire_timers
            (cancel_file_removal
              (schedule_file_removal settings st p size seed).1 p).1 ts).files := by
  have hnot : (!settings.auto_removal_enabled) = false := by rw [henabled]; rfl
  unfold schedule_file_removal
  rw [hnot]
  simp only [Bool.false_eq_true, if_false]
  unfold cancel_file_removal
  rw [assocGet_set_self]
  refine ⟨rfl, assocGet_erase_self _ _, ?_⟩
  intro ts
  apply fire_timers_preserve_untargeted_file p ts
  · exact hfile
  · intro t
    by_cases ht : t = st.next_timer
    · subst ht
      rw [assocGet_erase_self]
      exact fun hx => Option.noConfusion hx
    · rw [assocGet_erase_ne _ _ _ ht, assocGet_set_ne _ _ _ _ ht]
      exact hfree t

/-- Concrete run of C5: a 10 MB download is scheduled and cancelled; letting
timers 0, 1 and 5 fire leaves the file present. -/
theorem schedule_then_cancel_never_removes_witness :
    defaultAdminSettings.auto_removal_enabled = true ∧
    "downloads/a.mp4" ∈
      (fire_timers
        (cancel_file_removal
          (schedule_file_removal defaultAdminSettings
            { scheduled_removals := [], live_timers := [], next_timer := 0,
              files := ["downloads/a.mp4"] }
            "downloads/a.mp4" (10 * 1024 * 1024) 3).1
          "downloads/a.mp4").1 [0, 1, 5]).files :=
  ⟨rfl,
   (schedule_then_cancel_never_removes defaultAdminSettings
      { scheduled_removals := [], live_timers := [], next_timer := 0,
        files := ["downloads/a.mp4"] }
      "downloads/a.mp4" (10 * 1024 * 1024) 3 rfl
      (by intro t; simp [assocGet]) (by simp)).2.2 [0, 1, 5]⟩

/-! ## C7 — membership verification for public and private channels -/

/-- The transport used in the C7 witness: user is a member of the default
public promotion channel. -/
def memberQuery (c : String) : Option String :=
  if c = "@follwnowo" then some "member" else none

/-- C7: a channel whose verification-normalized reference starts with `+`
(private invite link) always satisfies the membership requirement; for any
other reference the requirement is satisfied exactly when the transport
reports the member status `member`, `administrator` or `creator` for the
queried channel. -/
theorem channel_membership_verification_spec (ref : String)
    (q : String → Option String) :
    (strStartsWith (normalizeChannelRef ref) "+" = true →
      channel_requirement_satisfied ref q = true) ∧
    (strStartsWith (normalizeChannelRef ref) "+" = false →
      strStartsWith (stripChannelRef (normalizeChannelRef ref)) "+" = false →
      (channel_requirement_satisfied ref q = true ↔
        ∃ s, q ("@" ++ stripChannelRef (normalizeChannelRef ref)) = some s ∧
          (s = "member" ∨ s = "administrator" ∨ s = "creator"))) := by
  constructor
  · intro h
    simp only [channel_requirement_satisfied]
    rw [h, Bool.or_true]
  · intro h1 h2
    simp only [channel_requirement_satisfied]
    rw [h1, Bool.or_false]
    simp only [check_channel_membership]
    rw [h2]
    simp only [Bool.false_eq_true, if_false]
    cases hq : q ("@" ++ stripChannelRef (normalizeChannelRef ref)) with
    | none => simp
    | some s =>
      have hmem : (["member", "administrator", "creator"].contains s = true) ↔
          (s = "member" ∨ s = "administrator" ∨ s = "creator") := by
        simp [List.contains]
      constructor
      · intro hs
        exact ⟨s, rfl, hmem.mp hs⟩
      · rintro ⟨s', hs', hin⟩
        injection hs' with hs'
        subst hs'
        exact hmem.mpr hin

/-- Concrete runs of C7: the default private help channel is auto-satisfied
even when the transport reports nothing, and the default public promotion
channel is satisfied exactly through the transport status. -/
theorem channel_membership_verification_spec_witness :
    (strStartsWith (normalizeChannelRef "https://t.me/+enYm2HitF0BkNTZl") "+" = true ∧
     channel_requirement_satisfied "https://t.me/+enYm2HitF0BkNTZl"
       (fun _ => none) = true) ∧
    (strStartsWith (normalizeChannelRef "https://t.me/follwnowo") "+" = false ∧
     strStartsWith (stripChannelRef
        (normalizeChannelRef "https://t.me/follwnowo")) "+" = false ∧
     (channel_requirement_satisfied "https://t.me/follwnowo" memberQuery = true ↔
        ∃ s, memberQuery
            ("@" ++ stripChannelRef (normalizeChannelRef "https://t.me/follwnowo")) =
            some s ∧
          (s = "member" ∨ s = "administrator" ∨ s = "creator"))) :=
  ⟨⟨by decide,
    (channel_membership_verification_spec "https://t.me/+enYm2HitF0BkNTZl"
      (fun _ => none)).1 (by decide)⟩,
   ⟨by decide, by decide,
    (channel_membership_verification_spec "https://t.me/follwnowo"
      memberQuery).2 (by decide) (by decide)⟩⟩

/-! ## C9 — pending-download replay on verification success -/

/-- C9: when the verification handler accepts (both configured channels
satisfied), the download replayed is exactly the content of the user's
pending slot — the single most recently stored URL, replayed once — and the
slot is cleared; an empty slot starts no download.  The last conjunct states
that `handle_channel_join_requirement` overwrites the slot, so it always
holds the most recent URL. -/
theorem verification_replays_pending_once (g : GState) (uid : Nat)
    (q : String → Option String)
    (hpromo : channel_requirement_satisfied g.data.settings.promotion_channel q = true)
    (hhelp : channel_requirement_satisfied g.data.settings.help_channel q = true) :
    (handle_channel_join_verification g uid q).2.downloads_started =
      (assocGet g.user_pending_downloads uid).toList ∧
    assocGet
        (handle_channel_join_verification g uid q).1.user_pending_downloads uid
      = none ∧
    ∀ url, assocGet
        (handle_channel_join_requirement g uid url).user_pending_downloads uid
      = some url := by
  simp only [channel_requirement_satisfied] at hpromo hhelp
  refine ⟨?_, ?_, ?_⟩
  · cases hp : assocGet g.user_pending_downloads uid with
    | some u => simp [handle_channel_join_verification, hpromo, hhelp, hp]
    | none => simp [handle_channel_join_verification, hpromo, hhelp, hp]
  · cases hp : assocGet g.user_pending_downloads uid with
    | some u =>
      simp [handle_channel_join_verification, hpromo, hhelp, hp, assocGet_erase_self]
    | none => simp [handle_channel_join_verification, hpromo, hhelp, hp]
  · intro url
    simp [handle_channel_join_requirement, assocGet_set_self]

/-- Concrete run of C9: user 1 has a pending URL, the transport confirms
membership of the public promotion channel, the help channel is a private
invite link; verification replays exactly the pending URL and clears the
slot. -/
theorem verification_replays_pending_once_witness :
    channel_requirement_satisfied
        ({ data := { users := [(1, freshUser)], total_users := 1,
                     total_downloads := 0, settings := defaultAdminSettings }
           flows := emptyFlows
           user_pending_downloads := [(1, "https://youtube.com/pending")]
           admin_pin_env := "872398" } : GState).data.settings.promotion_channel
        memberQuery = true ∧
    (handle_channel_join_verification
        { data := { users := [(1, freshUser)], total_users := 1,
                    total_downloads := 0, settings := defaultAdminSettings }
          flows := emptyFlows
          user_pending_downloads := [(1, "https://youtube.com/pending")]
          admin_pin_env := "872398" } 1 memberQuery).2.downloads_started =
      (assocGet
        ({ data := { users := [(1, freshUser)], total_users := 1,
                     total_downloads := 0, settings := defaultAdminSettings }
           flows := emptyFlows
           user_pending_downloads := [(1, "https://youtube.com/pending")]
           admin_pin_env := "872398" } : GState).user_pending_downloads 1).toList ∧
    assocGet
        (handle_channel_join_verification
          { data := { users := [(1, freshUser)], total_users := 1,
                      total_downloads := 0, settings := defaultAdminSettings }
            flows := emptyFlows
            user_pending_downloads := [(1, "https://youtube.com/pending")]
            admin_pin_env := "872398" } 1
          memberQuery).1.user_pending_downloads 1 = none :=
  ⟨by decide,
   (verification_replays_pending_once
      { data := { users := [(1, freshUser)], total_users := 1,
                  total_downloads := 0, settings := defaultAdminSettings }
        flows := emptyFlows
        user_pending_downloads := [(1, "https://youtube.com/pending")]
        admin_pin_env := "872398" } 1 memberQuery (by decide) (by decide)).1,
   (verification_replays_pending_once
      { data := { users := [(1, freshUser)], total_users := 1,
                  total_downloads := 0, settings := defaultAdminSettings }
        flows := emptyFlows
        user_pending_downloads := [(1, "https://youtube.com/pending")]
        admin_pin_env := "872398" } 1 memberQuery (by decide) (by decide)).2.1⟩

/-! ## C1 — the single-slot conversation invariant -/

/-- A small initial state: one registered admin user, default settings. -/
def bootState : GState :=
  { data := { users := [(1, freshUser)], total_users := 1, total_downloads := 0,
              settings := defaultAdminSettings }
    flows := emptyFlows
    user_pending_downloads := []
    admin_pin_env := "872398" }

/-- C1 counterexample: from `bootState`, the user presses the
`add_banned_word` button (begin of the banned-word flow) and then sends the
`I AM BOSS` trigger phrase (begin of the admin-PIN flow) with no intervening
consume or cancel.  The second begin is not rejected — both handlers run
through the real callback and text entry points — and the reachable state
holds two pending flow entries for the user, not at most one. -/
theorem conversation_single_slot_counterexample :
    (assocGet (handle_inbound_text
        ((handle_callback bootState 1 100 "add_banned_word" (fun _ => none)).1)
        1 "I AM BOSS").1.flows.waiting_for_banned_word 1).isSome = true ∧
    natSetMem (handle_inbound_text
        ((handle_callback bootState 1 100 "add_banned_word" (fun _ => none)).1)
        1 "I AM BOSS").1.flows.waiting_for_admin_pin 1 = true ∧
    pendingFlows (handle_inbound_text
        ((handle_callback bootState 1 100 "add_banned_word" (fun _ => none)).1)
        1 "I AM BOSS").1.flows 1 = 2 := by
  decide

/-- C1 (amended): the six waiting dicts are independent and no flow-start
handler consults the others, so beginning the banned-word flow and then the
admin-PIN flow is never rejected and leaves the same user pending in both —
from any state whatsoever. -/
theorem flow_begin_does_not_reject (g : GState) (uid message_id : Nat) :
    natSetMem (admin_panel_request
        (handle_add_banned_word_request g uid message_id)
        uid).flows.waiting_for_admin_pin uid = true ∧
    (assocGet (admin_panel_request
        (handle_add_banned_word_request g uid message_id)
        uid).flows.waiting_for_banned_word uid).isSome = true ∧
    2 ≤ pendingFlows (admin_panel_request
        (handle_add_banned_word_request g uid message_id) uid).flows uid := by
  have h1 : natSetMem (admin_panel_request
      (handle_add_banned_word_request g uid message_id)
      uid).flows.waiting_for_admin_pin uid = true := by
    simp [admin_panel_request, handle_add_banned_word_request, natSetMem_insert_self]
  have h2 : (assocGet (admin_panel_request
      (handle_add_banned_word_request g uid message_id)
      uid).flows.waiting_for_banned_word uid).isSome = true := by
    simp [admin_panel_request, handle_add_banned_word_request, assocGet_set_self]
  refine ⟨h1, h2, ?_⟩
  unfold pendingFlows
  rw [h1, h2]
  simp only [if_true]
  split_ifs <;> omega

/-! ## C8 — admin PIN entry -/

/-- A state with user 1 awaiting the admin PIN under default settings. -/
def pinWaitState : GState :=
  { data := { users := [(1, freshUser)], total_users := 1, total_downloads := 0,
              settings := defaultAdminSettings }
    flows := { emptyFlows with waiting_for_admin_pin := [1] }
    user_pending_downloads := []
    admin_pin_env := "872398" }

/-- C8 counterexample: the input `" 872398 "` is granted admin access even
though the entered text equals neither the environment-default PIN nor the
stored setting — the handler strips surrounding whitespace before
comparing, so "granted iff the entered text equals a PIN" fails. -/
theorem pin_entry_strict_text_counterexample :
    (handle_admin_pin_entry pinWaitState 1 " 872398 ").2.granted = true ∧
    " 872398 " ≠ pinWaitState.admin_pin_env ∧
    " 872398 " ≠ pinWaitState.data.settings.admin_pin.getD pinWaitState.admin_pin_env := by
  refine ⟨by decide, by decide, by decide⟩

/-- C8 (amended): for a user awaiting the PIN, access is granted exactly
when the entered text, stripped of surrounding whitespace, equals
case-sensitively the environment-default PIN or the stored `admin_pin`
setting; the awaiting state is cleared in every case (one-shot); and the
error notice is handed to the deletion scheduler exactly on failure. -/
theorem admin_pin_entry_spec (g : GState) (uid : Nat) (text : String)
    (h : natSetMem g.flows.waiting_for_admin_pin uid = true) :
    ((handle_admin_pin_entry g uid text).2.granted = true ↔
      (pyStrip text = g.admin_pin_env ∨
       pyStrip text = g.data.settings.admin_pin.getD g.admin_pin_env)) ∧
    natSetMem
        (handle_admin_pin_entry g uid text).1.flows.waiting_for_admin_pin uid
      = false ∧
    (handle_admin_pin_entry g uid text).2.error_scheduled
      = !(handle_admin_pin_entry g uid text).2.granted := by
  unfold handle_admin_pin_entry
  rw [h]
  by_cases hc : (pyStrip text == g.admin_pin_env ||
      pyStrip text == g.data.settings.admin_pin.getD g.admin_pin_env) = true
  · rw [if_neg (by simp)]
    rw [if_pos hc]
    simp only [Bool.or_eq_true, beq_iff_eq] at hc
    simpa [natSetMem_remove_self] using hc
  · rw [if_neg (by simp)]
    rw [if_neg hc]
    simp only [Bool.or_eq_true, beq_iff_eq] at hc
    simpa [natSetMem_remove_self] using hc

/-- Concrete run of C8 (amended): the exact default PIN is accepted and the
waiting state is cleared. -/
theorem admin_pin_entry_spec_witness :
    natSetMem pinWaitState.flows.waiting_for_admin_pin 1 = true ∧
    ((handle_admin_pin_entry pinWaitState 1 "872398").2.granted = true ↔
      (pyStrip "872398" = pinWaitState.admin_pin_env ∨
       pyStrip "872398" =
         pinWaitState.data.settings.admin_pin.getD pinWaitState.admin_pin_env)) ∧
    natSetMem
        (handle_admin_pin_entry pinWaitState 1 "872398").1.flows.waiting_for_admin_pin 1
      = false :=
  ⟨by decide, (admin_pin_entry_spec pinWaitState 1 "872398" (by decide)).1,
   (admin_pin_entry_spec pinWaitState 1 "872398" (by decide)).2.1⟩

/-! ## C2 — moderation precedence -/

/-- `add_user` is the identity on an already-registered user (display-field
refreshes elided). -/
theorem add_user_registered (d : BotData) (uid : Nat) (u : UserRec)
    (h : assocGet d.users uid = some u) : add_user d uid = d := by
  unfold add_user
  rw [h]

/-- A state with a banned word configured while user 1 awaits the admin
PIN. -/
def moderationState : GState :=
  { data := { users := [(1, freshUser)], total_users := 1, total_downloads := 0,
              settings := { defaultAdminSettings with banned_words := ["badword"] } }
    flows := { emptyFlows with waiting_for_admin_pin := [1] }
    user_pending_downloads := []
    admin_pin_env := "872398" }

/-- C2 counterexample: a message containing the banned word, sent by a user
in the awaiting-admin-PIN state, is dispatched to `handle_admin_pin_entry`
(registered before the enforcement handler) and processed as a PIN attempt —
consuming the waiting state and scheduling a failure notice — although the
banned-word scan matches the text: the moderation check never ran first. -/
theorem moderation_precedence_counterexample :
    check_banned_words moderationState.data.settings "tell badword now"
      = ["badword"] ∧
    dispatch_text moderationState 1 "tell badword now"
      = RegisteredHandler.adminPinEntryHandler ∧
    (handle_inbound_text moderationState 1 "tell badword now").2
      = InboundOutcome.pinProcessed
          { handled := true, granted := false, error_scheduled := true } ∧
    (handle_inbound_text moderationState 1
        "tell badword now").1.flows.waiting_for_admin_pin = [] := by
  decide

/-- C2 (amended): whenever a banned-word message does reach
`universal_message_enforcement` (the catch-all handler), moderation fires
before anything else — the message is deleted with the matched words, no
flow state is touched, no pending download is touched, and no link counter
moves. -/
theorem moderation_precedes_in_universal (g : GState) (uid : Nat) (text : String)
    (hstatus : ((assocGet g.data.users uid).map (fun u => u.status)).getD ""
        ≠ "banned")
    (hfound : check_banned_words g.data.settings text ≠ []) :
    (universal_message_enforcement g uid text).2 =
      UMEOutcome.moderationDeleted (check_banned_words g.data.settings text) ∧
    (universal_message_enforcement g uid text).1.flows = g.flows ∧
    (universal_message_enforcement g uid text).1.user_pending_downloads =
      g.user_pending_downloads ∧
    ∀ v, linkCountOf (universal_message_enforcement g uid text).1.data v =
      linkCountOf g.data v := by
  simp only [universal_message_enforcement]
  rw [if_neg hstatus]
  rw [add_user_settings]
  have hne : (check_banned_words g.data.settings text).isEmpty = false := by
    cases hcase : check_banned_words g.data.settings text with
    | nil => exact absurd hcase hfound
    | cons a l => rfl
  rw [hne]
  simp only [Bool.not_false, if_true]
  exact ⟨trivial, trivial, trivial, fun v => add_user_flows_invisible g.data uid v⟩

/-- Concrete run of C2 (amended): for a user with no pending PIN entry, the
banned-word message is deleted by the enforcement handler and nothing else
happens. -/
theorem moderation_precedes_in_universal_witness :
    (((assocGet
        ({ moderationState with flows := emptyFlows } : GState).data.users 2).map
          (fun u => u.status)).getD "" ≠ "banned") ∧
    check_banned_words
        ({ moderationState with flows := emptyFlows } : GState).data.settings
        "tell badword now" ≠ [] ∧
    (universal_message_enforcement { moderationState with flows := emptyFlows } 2
        "tell badword now").2 =
      UMEOutcome.moderationDeleted
        (check_banned_words
          ({ moderationState with flows := emptyFlows } : GState).data.settings
          "tell badword now") ∧
    (universal_message_enforcement { moderationState with flows := emptyFlows } 2
        "tell badword now").1.flows =
      ({ moderationState with flows := emptyFlows } : GState).flows ∧
    linkCountOf (universal_message_enforcement
        { moderationState with flows := emptyFlows } 2
        "tell badword now").1.data 1 =
      linkCountOf ({ moderationState with flows := emptyFlows } : GState).data 1 :=
  ⟨by decide, by decide,
   (moderation_precedes_in_universal { moderationState with flows := emptyFlows } 2
      "tell badword now" (by decide) (by decide)).1,
   (moderation_precedes_in_universal { moderationState with flows := emptyFlows } 2
      "tell badword now" (by decide) (by decide)).2.1,
   (moderation_precedes_in_universal { moderationState with flows := emptyFlows } 2
      "tell badword now" (by decide) (by decide)).2.2.2 1⟩

/-! ## C3 — link counting -/

/-- How many URLs the processing loop logs: every URL up to and including
the first video URL, or all of them when no URL is a video URL. -/
def count_logged_links : List String → Nat
  | [] => 0
  | url :: rest => if is_video_url url then 1 else 1 + count_logged_links rest

/-- The loop increments a registered user's `link_count` by exactly
`count_logged_links urls`. -/
theorem process_links_logs_until_first_video (uid : Nat) :
    ∀ (urls : List String) (g : GState) (u : UserRec),
      assocGet g.data.users uid = some u →
      linkCountOf (process_message_links g uid urls).1.data uid =
        u.link_count + count_logged_links urls := by
  intro urls
  induction urls with
  | nil =>
    intro g u h
    simp [process_message_links, count_logged_links, linkCountOf, h]
  | cons url rest ih =>
    intro g u h
    simp only [process_message_links, log_link, h]
    cases hv : is_video_url url with
    | true =>
      simp only [hv, if_true, count_logged_links]
      split_ifs
      · simp [handle_channel_join_requirement, linkCountOf, assocGet_set_self]
      · simp [linkCountOf, assocGet_set_self]
    | false =>
      simp only [hv, Bool.false_eq_true, if_false, count_logged_links]
      generalize hu' : ({ u with all_links := u.all_links ++ [url], link_count := u.link_count + 1 } : UserRec) = u'
      have hlc : u'.link_count = u.link_count + 1 := by rw [← hu']
      rw [ih { g with data := { g.data with users := assocSet g.data.users uid u' } } u' (assocGet_set_self _ _ _)]
      omega

/-- The flow consumers never touch the users map. -/
theorem handle_admin_pin_entry_keeps_data (g : GState) (uid : Nat) (text : String) :
    (handle_admin_pin_entry g uid text).1.data = g.data := by
  simp only [handle_admin_pin_entry]
  split_ifs <;> rfl

theorem banned_word_addition_keeps_users (g : GState) (uid : Nat) (text : String) :
    (handle_banned_word_addition g uid text).data.users = g.data.users := by
  simp only [handle_banned_word_addition]
  cases hm : assocGet g.flows.waiting_for_banned_word uid with
  | none => rfl
  | some m =>
    simp only
    split_ifs
    · simp only [add_banned_word]
      split_ifs <;> rfl
    · rfl

theorem promotion_input_keeps_users (g : GState) (uid : Nat) (text : String) :
    (handle_promotion_channel_input g uid text).data.users = g.data.users := by
  simp only [handle_promotion_channel_input]
  cases hm : assocGet g.flows.waiting_for_promotion_channel uid with
  | none => rfl
  | some m => simp only; split_ifs <;> rfl

theorem help_input_keeps_users (g : GState) (uid : Nat) (text : String) :
    (handle_help_channel_input g uid text).data.users = g.data.users := by
  simp only [handle_help_channel_input]
  cases hm : assocGet g.flows.waiting_for_help_channel uid with
  | none => rfl
  | some m => simp only; split_ifs <;> rfl

theorem new_pin_input_keeps_users (g : GState) (uid : Nat) (text : String) :
    (handle_new_pin_input g uid text).data.users = g.data.users := by
  simp only [handle_new_pin_input]
  cases hm : assocGet g.flows.waiting_for_new_pin uid with
  | none => rfl
  | some m => simp only; split_ifs <;> rfl

theorem admin_message_input_keeps_users (g : GState) (uid : Nat) (text : String) :
    (handle_admin_message_input g uid text).data.users = g.data.users := by
  simp only [handle_admin_message_input]
  cases hm : assocGet g.flows.waiting_for_admin_message uid with
  | none => rfl
  | some m => rfl

/-- `linkCountOf` only reads the users map. -/
theorem linkCountOf_congr_users (d d' : BotData) (v : Nat)
    (h : d'.users = d.users) : linkCountOf d' v = linkCountOf d v := by
  unfold linkCountOf
  rw [h]

set_option maxHeartbeats 1000000 in
/-- The button / flow dispatch tail never moves a link counter. -/
theorem universal_tail_keeps_link_count (g : GState) (uid : Nat) (text : String)
    (v : Nat) :
    linkCountOf (universal_tail g uid text).1.data v = linkCountOf g.data v := by
  unfold universal_tail
  by_cases h1 : text = "🧹 Clear Chat"
  · rw [if_pos h1]
  rw [if_neg h1]
  by_cases h2 : text = "📥 Download Video"
  · rw [if_pos h2]
  rw [if_neg h2]
  by_cases h3 : text = "📊 My Stats"
  · rw [if_pos h3]
  rw [if_neg h3]
  by_cases h4 : text = "ℹ️ Help"
  · rw [if_pos h4]
  rw [if_neg h4]
  by_cases h5 : text = "🔗 Supported Sites"
  · rw [if_pos h5]
  rw [if_neg h5]
  by_cases h6 : text = "I AM BOSS"
  · rw [if_pos h6]
    exact add_user_flows_invisible g.data uid v
  rw [if_neg h6]
  by_cases h7 : natSetMem g.flows.waiting_for_admin_pin uid = true
  · rw [if_pos h7]
    show linkCountOf (handle_admin_pin_entry g uid text).1.data v = linkCountOf g.data v
    rw [handle_admin_pin_entry_keeps_data]
  rw [if_neg h7]
  by_cases h8 : (assocGet g.flows.waiting_for_banned_word uid).isSome = true
  · rw [if_pos h8]
    exact linkCountOf_congr_users _ _ _ (banned_word_addition_keeps_users g uid text)
  rw [if_neg h8]
  by_cases h9 : (assocGet g.flows.waiting_for_promotion_channel uid).isSome = true
  · rw [if_pos h9]
    exact linkCountOf_congr_users _ _ _ (promotion_input_keeps_users g uid text)
  rw [if_neg h9]
  by_cases h10 : (assocGet g.flows.waiting_for_help_channel uid).isSome = true
  · rw [if_pos h10]
    exact linkCountOf_congr_users _ _ _ (help_input_keeps_users g uid text)
  rw [if_neg h10]
  by_cases h11 : (assocGet g.flows.waiting_for_new_pin uid).isSome = true
  · rw [if_pos h11]
    exact linkCountOf_congr_users _ _ _ (new_pin_input_keeps_users g uid text)
  rw [if_neg h11]
  by_cases h12 : (assocGet g.flows.waiting_for_admin_message uid).isSome = true
  · rw [if_pos h12]
    exact linkCountOf_congr_users _ _ _ (admin_message_input_keeps_users g uid text)
  rw [if_neg h12]

/-- C3 (amended): for a registered, non-banned user whose message passes the
banned-word filter and contains link-shaped text, one inbound message
increments `link_count` by one for each extracted URL up to and including
the first video URL — so by exactly `k` only when none of the `k` URLs is a
video URL; URLs after the first video URL are never counted, because the
loop returns there. -/
theorem message_link_count_increment (g : GState) (uid : Nat) (text : String)
    (u : UserRec)
    (hu : assocGet g.data.users uid = some u)
    (hstatus : u.status ≠ "banned")
    (hclean : check_banned_words g.data.settings text = [])
    (hlinks : (strContains (pyLower text) "http" ||
        strContains (pyLower text) "www.") = true) :
    linkCountOf (universal_message_enforcement g uid text).1.data uid =
      u.link_count + count_logged_links (extract_urls text) := by
  simp only [universal_message_enforcement]
  have hst : ((assocGet g.data.users uid).map (fun x => x.status)).getD ""
      = u.status := by
    rw [hu]
    rfl
  rw [hst, if_neg hstatus, add_user_registered g.data uid u hu, hclean]
  simp only [List.isEmpty_nil, Bool.not_true, Bool.false_eq_true, if_false]
  rw [hlinks]
  simp only [if_true]
  have hcount := process_links_logs_until_first_video uid (extract_urls text) g u hu
  cases hact : (process_message_links g uid (extract_urls text)).2 with
  | noAction =>
    simp only []
    rw [universal_tail_keeps_link_count]
    exact hcount
  | joinRequired url =>
    simp only []
    exact hcount
  | download url =>
    simp only []
    exact hcount

/-- A registered user under settings with the join gate disabled. -/
def doubleLinkState : GState :=
  { data := { users := [(1, freshUser)], total_users := 1, total_downloads := 0,
              settings := { defaultAdminSettings with channel_join_required := false } }
    flows := emptyFlows
    user_pending_downloads := []
    admin_pin_env := "872398" }

/-- C3 counterexample: a message with two URL-shaped substrings, both video
URLs, increments the registered user's `link_count` by 1, not by 2 — the
loop returns after handling the first video URL. -/
theorem link_count_per_url_counterexample :
    (extract_urls "https://youtube.com/a https://youtube.com/b").length = 2 ∧
    linkCountOf (handle_inbound_text doubleLinkState 1
        "https://youtube.com/a https://youtube.com/b").1.data 1 = 1 := by
  decide

/-- Concrete run of C3 (amended): a non-video URL followed by a video URL
increments by 2 (both logged, loop stops at the video URL). -/
theorem message_link_count_increment_witness :
    assocGet doubleLinkState.data.users 1 = some freshUser ∧
    freshUser.status ≠ "banned" ∧
    check_banned_words doubleLinkState.data.settings
      "http://example.org/z https://youtube.com/watch" = [] ∧
    (strContains (pyLower "http://example.org/z https://youtube.com/watch") "http" ||
      strContains (pyLower "http://example.org/z https://youtube.com/watch") "www.")
      = true ∧
    linkCountOf (universal_message_enforcement doubleLinkState 1
        "http://example.org/z https://youtube.com/watch").1.data 1 =
      freshUser.link_count + count_logged_links
        (extract_urls "http://example.org/z https://youtube.com/watch") :=
  ⟨by decide, by decide, by decide, by decide,
   message_link_count_increment doubleLinkState 1
     "http://example.org/z https://youtube.com/watch" freshUser
     (by decide) (by decide) (by decide) (by decide)⟩

end Sakib
